import Mathlib

/-!
Shallow embedding of the `Processor` module of the c3dio repository
(`src/processor.rs`): the three-way processor-format variant, detection of
the format from the parameter start block, and the six codec operations
(u16 / i16 / f32 decode and encode).

Modelling conventions:
* A byte is a `Nat` (in range `< 256` where the claim needs it).
* A `u16` is its `Nat` value, an `i16` is its `Int` value.
* An `f32` is represented by its 32-bit IEEE-754 bit pattern as a `Nat`
  (`< 2 ^ 32`).  Rust's `f32::from_le_bytes` / `f32::to_le_bytes` are exact
  bit reinterpretations (transmutes), so byte-level decoding and encoding,
  and all bitwise claims about them, are faithfully captured on patterns.
* Rust `u8` subtraction `bytes[1] - 1` only happens under the guard
  `bytes[1] != 0`, where it agrees with `Nat` subtraction; the `+ 1` in
  `f32_to_bytes` only happens under the guard `temp[3] != 255`, where it
  cannot overflow, so plain `Nat` addition is faithful.
-/

/-- The processor type enum of `src/processor.rs`: `Dec`, `Intel`, `SgiMips`. -/
inductive Processor where
  | Dec : Processor
  | Intel : Processor
  | SgiMips : Processor
deriving DecidableEq, Repr

/-- The single error condition the codec core can raise
(`C3dParseError::InvalidProcessorType`). -/
inductive C3dParseError where
  | InvalidProcessorType : C3dParseError
deriving DecidableEq, Repr

/-- A 2-byte sequence `[b0, b1]` (Rust `[u8; 2]`). -/
structure Bytes2 where
  b0 : Nat
  b1 : Nat
deriving DecidableEq, Repr

/-- A 4-byte sequence `[b0, b1, b2, b3]` (Rust `[u8; 4]`). -/
structure Bytes4 where
  b0 : Nat
  b1 : Nat
  b2 : Nat
  b3 : Nat
deriving DecidableEq, Repr

/-- Both bytes are in the `u8` range. -/
def Bytes2.inRange (b : Bytes2) : Prop := b.b0 < 256 ∧ b.b1 < 256

instance (b : Bytes2) : Decidable b.inRange := by
  unfold Bytes2.inRange; exact inferInstance

/-- All four bytes are in the `u8` range. -/
def Bytes4.inRange (b : Bytes4) : Prop :=
  b.b0 < 256 ∧ b.b1 < 256 ∧ b.b2 < 256 ∧ b.b3 < 256

instance (b : Bytes4) : Decidable b.inRange := by
  unfold Bytes4.inRange; exact inferInstance

/-- Rust `u16::from_le_bytes`. -/
def u16FromLeBytes (b : Bytes2) : Nat := b.b0 + 256 * b.b1

/-- Rust `u16::from_be_bytes`. -/
def u16FromBeBytes (b : Bytes2) : Nat := b.b1 + 256 * b.b0

/-- Rust `u16::to_le_bytes`. -/
def u16ToLeBytes (v : Nat) : Bytes2 := ⟨v % 256, v / 256 % 256⟩

/-- Rust `u16::to_be_bytes`. -/
def u16ToBeBytes (v : Nat) : Bytes2 := ⟨v / 256 % 256, v % 256⟩

/-- Signed (two's complement) reading of a 16-bit pattern. -/
def toSigned16 (n : Nat) : Int := if n < 32768 then (n : Int) else (n : Int) - 65536

/-- Rust `i16::from_le_bytes`: two's complement reading of the
little-endian 16-bit pattern. -/
def i16FromLeBytes (b : Bytes2) : Int := toSigned16 (u16FromLeBytes b)

/-- Rust `i16::from_be_bytes`. -/
def i16FromBeBytes (b : Bytes2) : Int := toSigned16 (u16FromBeBytes b)

/-- Rust `i16::to_le_bytes`: bytes of the two's complement 16-bit pattern. -/
def i16ToLeBytes (v : Int) : Bytes2 := u16ToLeBytes (v % 65536).toNat

/-- Rust `i16::to_be_bytes`. -/
def i16ToBeBytes (v : Int) : Bytes2 := u16ToBeBytes (v % 65536).toNat

/-- Rust `f32::from_le_bytes`, on bit patterns: the little-endian 32-bit
pattern of the four bytes. -/
def f32FromLeBytes (b : Bytes4) : Nat :=
  b.b0 + 256 * b.b1 + 65536 * b.b2 + 16777216 * b.b3

/-- Rust `f32::from_be_bytes`, on bit patterns. -/
def f32FromBeBytes (b : Bytes4) : Nat :=
  b.b3 + 256 * b.b2 + 65536 * b.b1 + 16777216 * b.b0

/-- Rust `f32::to_le_bytes`, on bit patterns. -/
def f32ToLeBytes (v : Nat) : Bytes4 :=
  ⟨v % 256, v / 256 % 256, v / 65536 % 256, v / 16777216 % 256⟩

/-- Rust `f32::to_be_bytes`, on bit patterns. -/
def f32ToBeBytes (v : Nat) : Bytes4 :=
  ⟨v / 16777216 % 256, v / 65536 % 256, v / 256 % 256, v % 256⟩

/-- `fn intel_u16(bytes: [u8; 2]) -> u16 { u16::from_le_bytes(bytes) }` -/
def intel_u16 (bytes : Bytes2) : Nat := u16FromLeBytes bytes

/-- `fn dec_u16(bytes: [u8; 2]) -> u16 { u16::from_le_bytes(bytes) }` -/
def dec_u16 (bytes : Bytes2) : Nat := u16FromLeBytes bytes

/-- `fn sgi_mips_u16(bytes: [u8; 2]) -> u16 { u16::from_be_bytes(bytes) }` -/
def sgi_mips_u16 (bytes : Bytes2) : Nat := u16FromBeBytes bytes

/-- `fn intel_i16(bytes: [u8; 2]) -> i16 { i16::from_le_bytes(bytes) }` -/
def intel_i16 (bytes : Bytes2) : Int := i16FromLeBytes bytes

/-- `fn dec_i16(bytes: [u8; 2]) -> i16 { i16::from_le_bytes(bytes) }` -/
def dec_i16 (bytes : Bytes2) : Int := i16FromLeBytes bytes

/-- `fn sgi_mips_i16(bytes: [u8; 2]) -> i16 { i16::from_be_bytes(bytes) }` -/
def sgi_mips_i16 (bytes : Bytes2) : Int := i16FromBeBytes bytes

/-- `fn intel_f32(bytes: [u8; 4]) -> f32 { f32::from_le_bytes(bytes) }` -/
def intel_f32 (bytes : Bytes4) : Nat := f32FromLeBytes bytes

/-- `fn dec_f32(bytes: [u8; 4]) -> f32`: if `bytes[1] == 0x00`, reinterpret
`[b2, b3, b0, b1]` little-endian; otherwise reinterpret
`[b2, b3, b0, b1 - 1]` little-endian. -/
def dec_f32 (bytes : Bytes4) : Nat :=
  if bytes.b1 = 0x00 then
    f32FromLeBytes ⟨bytes.b2, bytes.b3, bytes.b0, bytes.b1⟩
  else
    f32FromLeBytes ⟨bytes.b2, bytes.b3, bytes.b0, bytes.b1 - 1⟩

/-- `fn sgi_mips_f32(bytes: [u8; 4]) -> f32 { f32::from_be_bytes(bytes) }` -/
def sgi_mips_f32 (bytes : Bytes4) : Nat := f32FromBeBytes bytes

/-- `Processor::from_parameter_start_block`: match on byte 3 of the
512-byte parameter start block. -/
def Processor.from_parameter_start_block (parameter_start_block : Fin 512 → Nat) :
    Except C3dParseError Processor :=
  if parameter_start_block 3 = 0x54 then Except.ok Processor.Intel
  else if parameter_start_block 3 = 0x55 then Except.ok Processor.Dec
  else if parameter_start_block 3 = 0x56 then Except.ok Processor.SgiMips
  else Except.error C3dParseError.InvalidProcessorType

/-- `Processor::u16`: dispatch on the processor variant. -/
def Processor.u16 : Processor → Bytes2 → Nat
  | Processor.Intel, bytes => intel_u16 bytes
  | Processor.Dec, bytes => dec_u16 bytes
  | Processor.SgiMips, bytes => sgi_mips_u16 bytes

/-- `Processor::i16`: dispatch on the processor variant (the Rust
`as i16` cast is the identity on an `i16`). -/
def Processor.i16 : Processor → Bytes2 → Int
  | Processor.Intel, bytes => intel_i16 bytes
  | Processor.Dec, bytes => dec_i16 bytes
  | Processor.SgiMips, bytes => sgi_mips_i16 bytes

/-- `Processor::f32`: dispatch on the processor variant. -/
def Processor.f32 : Processor → Bytes4 → Nat
  | Processor.Intel, bytes => intel_f32 bytes
  | Processor.Dec, bytes => dec_f32 bytes
  | Processor.SgiMips, bytes => sgi_mips_f32 bytes

/-- `Processor::u16_to_bytes`: Intel and Dec write little-endian,
SgiMips writes big-endian. -/
def Processor.u16_to_bytes : Processor → Nat → Bytes2
  | Processor.Intel, value => u16ToLeBytes value
  | Processor.Dec, value => u16ToLeBytes value
  | Processor.SgiMips, value => u16ToBeBytes value

/-- `Processor::i16_to_bytes`. -/
def Processor.i16_to_bytes : Processor → Int → Bytes2
  | Processor.Intel, value => i16ToLeBytes value
  | Processor.Dec, value => i16ToLeBytes value
  | Processor.SgiMips, value => i16ToBeBytes value

/-- `Processor::f32_to_bytes`: Intel writes little-endian, SgiMips writes
big-endian; Dec takes the little-endian bytes `temp`, outputs
`[temp[2], temp[3], temp[0], temp[1]]` when `temp[3] == 255`, otherwise
`[temp[2], temp[3] + 1, temp[0], temp[1]]`. -/
def Processor.f32_to_bytes : Processor → Nat → Bytes4
  | Processor.Intel, value => f32ToLeBytes value
  | Processor.Dec, value =>
      let temp := f32ToLeBytes value
      if temp.b3 = 255 then
        ⟨temp.b2, temp.b3, temp.b0, temp.b1⟩
      else
        ⟨temp.b2, temp.b3 + 1, temp.b0, temp.b1⟩
  | Processor.SgiMips, value => f32ToBeBytes value

/-! ## Claim theorems -/

/-- Claim C1: for every 4-byte input `[b0, b1, b2, b3]`, `decode_f32` with
the `Dec` variant returns the little-endian IEEE-754 interpretation of the
reordered bytes `[b2, b3, b0, b1]` when `b1 == 0x00`, and the little-endian
IEEE-754 interpretation of `[b2, b3, b0, b1 - 1]` otherwise (on bit
patterns). -/
theorem C1_dec_f32_decode (b0 b1 b2 b3 : Nat) :
    Processor.f32 Processor.Dec ⟨b0, b1, b2, b3⟩ =
      if b1 = 0x00 then f32FromLeBytes ⟨b2, b3, b0, b1⟩
      else f32FromLeBytes ⟨b2, b3, b0, b1 - 1⟩ := rfl

/-- Claim C2: for every f32 value `v` whose IEEE-754 little-endian byte
representation is `[t0, t1, t2, t3]`, `encode_f32` with the `Dec` variant
returns `[t2, t3, t0, t1]` when `t3 == 0xFF`, and `[t2, t3 + 1, t0, t1]`
otherwise (`v` ranges over 32-bit patterns). -/
theorem C2_dec_f32_encode (v : Nat) :
    Processor.f32_to_bytes Processor.Dec v =
      (if (f32ToLeBytes v).b3 = 0xFF then
        ⟨(f32ToLeBytes v).b2, (f32ToLeBytes v).b3,
          (f32ToLeBytes v).b0, (f32ToLeBytes v).b1⟩
      else
        ⟨(f32ToLeBytes v).b2, (f32ToLeBytes v).b3 + 1,
          (f32ToLeBytes v).b0, (f32ToLeBytes v).b1⟩ : Bytes4) := rfl

/-- Claim C3: for the `Dec` variant, decode after encode reproduces the
original value for `1.0` (bits `0x3F800000`), `-1.0` (bits `0xBF800000`),
`0.0` (bits `0x00000000`), and the smallest positive subnormal f32
(bits `0x00000001`). -/
theorem C3_dec_roundtrip_sample_values :
    Processor.f32 Processor.Dec (Processor.f32_to_bytes Processor.Dec 0x3F800000)
        = 0x3F800000 ∧
    Processor.f32 Processor.Dec (Processor.f32_to_bytes Processor.Dec 0xBF800000)
        = 0xBF800000 ∧
    Processor.f32 Processor.Dec (Processor.f32_to_bytes Processor.Dec 0x00000000)
        = 0x00000000 ∧
    Processor.f32 Processor.Dec (Processor.f32_to_bytes Processor.Dec 0x00000001)
        = 0x00000001 := by
  refine ⟨rfl, rfl, rfl, rfl⟩

/-- Claim C4: the Dec encode/decode pair is not a perfect inverse at the
boundary: there is an f32 value (bit pattern `0xFF7F0000`, whose
little-endian bytes `[0x00, 0x00, 0x7F, 0xFF]` have `t3 == 0xFF`) that the
Dec round trip does not reproduce bitwise. -/
theorem C4_dec_boundary_not_inverse :
    ∃ v : Nat, v < 2 ^ 32 ∧ (f32ToLeBytes v).b3 = 0xFF ∧
      Processor.f32 Processor.Dec (Processor.f32_to_bytes Processor.Dec v) ≠ v :=
  ⟨0xFF7F0000, by decide⟩

/-- Claim C5: for every 512-byte block, detection returns `Ok Intel` when
byte 3 is `0x54`, `Ok Dec` when it is `0x55`, `Ok SgiMips` when it is
`0x56`, fails with `InvalidProcessorType` for every other value of that
byte, and depends only on the byte at index 3. -/
theorem C5_from_parameter_start_block_detect (block : Fin 512 → Nat) :
    (block 3 = 0x54 →
      Processor.from_parameter_start_block block = Except.ok Processor.Intel) ∧
    (block 3 = 0x55 →
      Processor.from_parameter_start_block block = Except.ok Processor.Dec) ∧
    (block 3 = 0x56 →
      Processor.from_parameter_start_block block = Except.ok Processor.SgiMips) ∧
    (block 3 ≠ 0x54 → block 3 ≠ 0x55 → block 3 ≠ 0x56 →
      Processor.from_parameter_start_block block =
        Except.error C3dParseError.InvalidProcessorType) ∧
    (∀ other : Fin 512 → Nat, other 3 = block 3 →
      Processor.from_parameter_start_block other =
        Processor.from_parameter_start_block block) := by
  unfold Processor.from_parameter_start_block
  refine ⟨?_, ?_, ?_, ?_, ?_⟩
  · intro h; simp [h]
  · intro h; simp [h]
  · intro h; simp [h]
  · intro h1 h2 h3; simp [h1, h2, h3]
  · intro other h; simp [h]

/-- Closed instance of C5: a block whose byte 3 is `0x55` is detected as
`Dec`. -/
theorem C5_from_parameter_start_block_detect_witness :
    Processor.from_parameter_start_block (fun _ => 0x55) =
      Except.ok Processor.Dec :=
  (C5_from_parameter_start_block_detect (fun _ => 0x55)).2.1 rfl

/-- Claim C6: for every 2-byte input, `decode_u16` and `decode_i16` with
the Intel and Dec variants return the little-endian interpretation, and
with the SgiMips variant the big-endian interpretation; in particular
`decode_u16 SgiMips [0x01, 0x02] = 0x0102` and
`decode_u16 Intel [0x01, 0x02] = 0x0201`.  Both operations are total by
construction in the model. -/
theorem C6_u16_i16_decode (b : Bytes2) :
    Processor.u16 Processor.Intel b = b.b0 + 256 * b.b1 ∧
    Processor.u16 Processor.Dec b = b.b0 + 256 * b.b1 ∧
    Processor.u16 Processor.SgiMips b = b.b1 + 256 * b.b0 ∧
    Processor.i16 Processor.Intel b = toSigned16 (b.b0 + 256 * b.b1) ∧
    Processor.i16 Processor.Dec b = toSigned16 (b.b0 + 256 * b.b1) ∧
    Processor.i16 Processor.SgiMips b = toSigned16 (b.b1 + 256 * b.b0) ∧
    Processor.u16 Processor.SgiMips ⟨0x01, 0x02⟩ = 0x0102 ∧
    Processor.u16 Processor.Intel ⟨0x01, 0x02⟩ = 0x0201 := by
  refine ⟨rfl, rfl, rfl, rfl, rfl, rfl, rfl, rfl⟩

/-- Claim C7: for every variant, the u16 and i16 codecs round-trip in both
directions: decode after encode is the identity on 16-bit values, and
encode after decode is the identity on 2-byte sequences. -/
theorem C7_u16_i16_roundtrip (p : Processor) (n : Nat) (v : Int) (b : Bytes2)
    (hn : n < 65536) (hv : -32768 ≤ v ∧ v < 32768) (hb : b.inRange) :
    Processor.u16 p (Processor.u16_to_bytes p n) = n ∧
    Processor.u16_to_bytes p (Processor.u16 p b) = b ∧
    Processor.i16 p (Processor.i16_to_bytes p v) = v ∧
    Processor.i16_to_bytes p (Processor.i16 p b) = b := by
  obtain ⟨x, y⟩ := b
  have hx : x < 256 := hb.1
  have hy : y < 256 := hb.2
  obtain ⟨hv1, hv2⟩ := hv
  clear hb
  cases p <;>
    simp only [Processor.u16, Processor.u16_to_bytes, Processor.i16,
      Processor.i16_to_bytes, intel_u16, dec_u16, sgi_mips_u16, intel_i16,
      dec_i16, sgi_mips_i16, u16FromLeBytes, u16FromBeBytes, u16ToLeBytes,
      u16ToBeBytes, i16FromLeBytes, i16FromBeBytes, i16ToLeBytes,
      i16ToBeBytes, toSigned16, Bytes2.mk.injEq] <;>
    refine ⟨by omega, ⟨by omega, by omega⟩, ?_, ?_⟩ <;>
    split_ifs <;> omega

/-- Closed instance of C7 at the SgiMips variant, `n = 258`, `v = -5`,
`b = [0x01, 0x02]`. -/
theorem C7_u16_i16_roundtrip_witness :
    Processor.u16 Processor.SgiMips
        (Processor.u16_to_bytes Processor.SgiMips 258) = 258 ∧
    Processor.u16_to_bytes Processor.SgiMips
        (Processor.u16 Processor.SgiMips ⟨1, 2⟩) = ⟨1, 2⟩ ∧
    Processor.i16 Processor.SgiMips
        (Processor.i16_to_bytes Processor.SgiMips (-5)) = -5 ∧
    Processor.i16_to_bytes Processor.SgiMips
        (Processor.i16 Processor.SgiMips ⟨1, 2⟩) = ⟨1, 2⟩ :=
  C7_u16_i16_roundtrip Processor.SgiMips 258 (-5) ⟨1, 2⟩ (by decide)
    ⟨by decide, by decide⟩ (by decide)

/-- Claim C8: for every 4-byte input, `decode_f32` with the Intel variant
is the direct little-endian IEEE-754 reinterpretation and with the SgiMips
variant the direct big-endian reinterpretation; in particular
`decode_f32 Intel [0x00, 0x00, 0x80, 0x3F]` and
`decode_f32 SgiMips [0x3F, 0x80, 0x00, 0x00]` are both `0x3F800000`, the
bit pattern of `1.0`. -/
theorem C8_intel_sgi_f32_decode (b : Bytes4) :
    Processor.f32 Processor.Intel b = f32FromLeBytes b ∧
    Processor.f32 Processor.SgiMips b = f32FromBeBytes b ∧
    Processor.f32 Processor.Intel ⟨0x00, 0x00, 0x80, 0x3F⟩ = 0x3F800000 ∧
    Processor.f32 Processor.SgiMips ⟨0x3F, 0x80, 0x00, 0x00⟩ = 0x3F800000 := by
  refine ⟨rfl, rfl, by decide, by decide⟩

/-- Claim C9: for the Intel and SgiMips variants, decode after encode is
the bitwise identity on every 32-bit f32 pattern (hence on every finite
f32, including `0.0`, `-0.0`, the smallest subnormal and the largest
finite magnitude). -/
theorem C9_intel_sgi_f32_roundtrip (x : Nat) (hx : x < 2 ^ 32) :
    Processor.f32 Processor.Intel (Processor.f32_to_bytes Processor.Intel x) = x ∧
    Processor.f32 Processor.SgiMips
        (Processor.f32_to_bytes Processor.SgiMips x) = x := by
  simp only [Processor.f32, Processor.f32_to_bytes, intel_f32, sgi_mips_f32,
    f32FromLeBytes, f32FromBeBytes, f32ToLeBytes, f32ToBeBytes]
  omega

/-- Closed instance of C9 at `x = 0x80000000`, the bit pattern of
`-0.0`. -/
theorem C9_intel_sgi_f32_roundtrip_witness :
    Processor.f32 Processor.Intel
        (Processor.f32_to_bytes Processor.Intel 0x80000000) = 0x80000000 ∧
    Processor.f32 Processor.SgiMips
        (Processor.f32_to_bytes Processor.SgiMips 0x80000000) = 0x80000000 :=
  C9_intel_sgi_f32_roundtrip 0x80000000 (by decide)

/-- Claim C10: `Dec` `decode_f32` is not injective: for all bytes
`b0, b2, b3`, the inputs `[b0, 0x00, b2, b3]` and `[b0, 0x01, b2, b3]`
decode to the same bit pattern (both branches produce the reordered bytes
`[b2, b3, b0, 0x00]`); consequently there is a 4-byte sequence `b` with
`encode_f32 Dec (decode_f32 Dec b) ≠ b`. -/
theorem C10_dec_f32_not_injective :
    (∀ b0 b2 b3 : Nat,
      Processor.f32 Processor.Dec ⟨b0, 0x00, b2, b3⟩ =
          Processor.f32 Processor.Dec ⟨b0, 0x01, b2, b3⟩ ∧
      Processor.f32 Processor.Dec ⟨b0, 0x00, b2, b3⟩ =
          f32FromLeBytes ⟨b2, b3, b0, 0x00⟩) ∧
    (∃ b : Bytes4, b.inRange ∧
      Processor.f32_to_bytes Processor.Dec (Processor.f32 Processor.Dec b) ≠ b) := by
  refine ⟨fun b0 b2 b3 => ⟨rfl, rfl⟩, ⟨⟨0, 0, 0, 0⟩, by decide⟩⟩
